import Mathlib

/-!
Shallow embedding of the plugin-scoped token refresh subsystem of the
`chefs-embed` repository:

* `src/utils/plugin-registry.js` — plugin registry load and OIDC config
  resolution (`loadPluginRegistry`, `getPlugin`, `getPluginOidcConfig`);
* `src/routes/auth-refresh.js` — the `POST /auth/refresh-token` handler;
* `src/public/lib/user-token-refresh.js` — the client refresh scheduler
  (`UserTokenRefresh`: constructor, `bind`, `unbind`, `_handleExpiring`,
  `_handleFailure`).

JavaScript platform primitives (`fetch`, `Buffer.from(.., "base64url")`,
`JSON.parse`, DOM event dispatch) are modelled as explicit inputs: the
outcome of a network call is a parameter of the handler, base64url/JSON
decoding are function-valued fields of an environment record, and event
dispatch reaches the handler exactly when the listener is attached.
JavaScript truthiness on optional strings (`undefined` and `""` are falsy)
is made explicit by `truthyOpt`.
-/

/-- JS truthiness of an optional string value: `undefined`/absent and the
empty string are falsy, every other string is truthy. -/
def truthyOpt : Option String → Bool
  | none => false
  | some s => s != ""

/-! ## Data model: manifests and the registry (`src/utils/plugin-registry.js`) -/

/-- The `tokenRefresh.oidc` field of a plugin manifest: either the sentinel
string `"host"` or a custom object `{ tokenEndpoint, clientId }` whose
fields may individually be absent. -/
inductive OidcRef where
  | host
  | custom (tokenEndpoint clientId : Option String)
  deriving DecidableEq, Repr

/-- The optional `tokenRefresh` block of a manifest:
`{ oidc, buffer? }`. `oidc := none` models an absent (or falsy) `oidc`
field. -/
structure TokenRefreshBlock where
  oidc : Option OidcRef
  buffer : Option Nat
  deriving DecidableEq, Repr

/-- A plugin manifest as exported by a plugin module: a slug plus the
optional `tokenRefresh` block (other fields are opaque to this
subsystem). -/
structure Manifest where
  slug : String
  tokenRefresh : Option TokenRefreshBlock
  deriving DecidableEq, Repr

/-- A registry entry: the manifest spread together with the added
`modulePath` (`{...manifest, modulePath}`). -/
structure RegEntry where
  manifest : Manifest
  modulePath : String
  deriving DecidableEq, Repr

/-- The registry, a `Map` from slug to entry, modelled as an association
list without duplicate keys (insertion handled by `regSet`). -/
abbrev Registry := List (String × RegEntry)

/-- `registry.set(k, v)`: replace the value at an existing key in place,
otherwise append the new binding. -/
def regSet (r : Registry) (k : String) (v : RegEntry) : Registry :=
  if r.any (fun p => p.1 == k) then
    r.map (fun p => if p.1 == k then (k, v) else p)
  else
    r ++ [(k, v)]

/-- `registry.get(slug) || null` (`getPlugin` in
`src/utils/plugin-registry.js`). -/
def getPlugin (r : Registry) (slug : String) : Option RegEntry :=
  (r.find? (fun p => p.1 == slug)).map (fun p => p.2)

/-- Host application's provider configuration, from `config.keycloak`
(`src/config.js`): the two fields `getPluginOidcConfig` reads. -/
structure KeycloakConfig where
  tokenURL : String
  clientID : String
  deriving DecidableEq, Repr

/-- The resolved OIDC configuration
`{ tokenEndpoint, clientId, buffer }`. -/
structure OidcConfig where
  tokenEndpoint : String
  clientId : String
  buffer : Nat
  deriving DecidableEq, Repr

/-- `getPluginOidcConfig(slug)` from `src/utils/plugin-registry.js`:
look the plugin up by slug; return `null` unless `plugin?.tokenRefresh?.oidc`
is truthy; compute `buffer = plugin.tokenRefresh.buffer || 60`; resolve the
sentinel `"host"` against the host Keycloak config; for a custom object
return `null` unless both `tokenEndpoint` and `clientId` are truthy. -/
def getPluginOidcConfig (kc : KeycloakConfig) (r : Registry) (slug : String) :
    Option OidcConfig :=
  match getPlugin r slug with
  | none => none
  | some plugin =>
    match plugin.manifest.tokenRefresh with
    | none => none
    | some tr =>
      match tr.oidc with
      | none => none
      | some oref =>
        let buffer := match tr.buffer with
          | some b => if b == 0 then 60 else b
          | none => 60
        match oref with
        | .host => some ⟨kc.tokenURL, kc.clientID, buffer⟩
        | .custom te ci =>
          if truthyOpt te && truthyOpt ci then
            some ⟨te.getD "", ci.getD "", buffer⟩
          else
            none

/-! ## Registry load (`loadPluginRegistry` in `src/utils/plugin-registry.js`) -/

/-- Outcome of `await import(pathToFileURL(absPath))` for one plugin file:
the import either throws or yields a module whose `manifest` export may be
absent. -/
inductive ModuleResult where
  | importError (msg : String)
  | loaded (manifest : Option Manifest)
  deriving DecidableEq, Repr

/-- One entry of the plugin directory: the file name paired with the
outcome of importing it. -/
structure DirEntry where
  name : String
  result : ModuleResult
  deriving DecidableEq, Repr

/-- `loadPluginRegistry()` from `src/utils/plugin-registry.js`. The
directory read is an input: `none` models `fs.readdir` throwing (caught,
logged; the cleared registry stays empty). Otherwise the entries are
filtered to `.js` files; each module that imports successfully and exposes
a manifest with a truthy slug is inserted keyed by slug with `modulePath`
added; a throwing import or a missing/slug-less manifest is skipped.
`registerDirEntry` is the loop body for one directory entry. -/
def registerDirEntry (r : Registry) (e : DirEntry) : Registry :=
  match e.result with
  | .importError _ => r
  | .loaded none => r
  | .loaded (some mf) =>
    if mf.slug == "" then r
    else regSet r mf.slug ⟨mf, "/plugins/" ++ e.name⟩

/-- `name.endsWith(".js")`: string suffix test, in the executable
list-of-characters form (extensionally `String.endsWith`). -/
def strEndsWith (s suf : String) : Bool :=
  suf.data.isSuffixOf s.data

/-- `loadPluginRegistry()` continued: filter the directory entries to
`.js` files and fold `registerDirEntry` over them starting from the
cleared registry. -/
def loadPluginRegistry (dir : Option (List DirEntry)) : Registry :=
  match dir with
  | none => []
  | some entries =>
    (entries.filter (fun e => strEndsWith e.name ".js")).foldl registerDirEntry []

/-! ## The refresh route (`src/routes/auth-refresh.js`) -/

/-- The decoded JWT payload, as far as the route uses it: its `exp`
property (`none` models an absent claim, giving `expiresAt: undefined`)
plus the remaining claims, kept opaque as key/value pairs. -/
structure Payload where
  exp : Option Int
  rest : List (String × String)
  deriving DecidableEq, Repr

/-- Platform decoding primitives used by the route:
`Buffer.from(s, "base64url").toString()` (total on strings in Node) and
`JSON.parse` on the decoded text (`none` models a thrown `SyntaxError`). -/
structure JwtEnv where
  b64urlToString : String → String
  jsonParsePayload : String → Option Payload

/-- Split a list of characters at every occurrence of `c`, keeping empty
pieces — the semantics of the JS `String.prototype.split` with a
single-character separator, in executable form. -/
def splitCharAux (c : Char) : List Char → List Char → List String
  | [], acc => [String.mk acc.reverse]
  | x :: xs, acc =>
    if x = c then String.mk acc.reverse :: splitCharAux c xs []
    else splitCharAux c xs (x :: acc)

/-- `s.split(c)` for a one-character separator. -/
def splitChar (c : Char) (s : String) : List String :=
  splitCharAux c s.data []

/-- The route's decode pipeline for the new access token:
`const [, payloadB64] = tokens.access_token.split(".")` followed by
`JSON.parse(Buffer.from(payloadB64, "base64url").toString())`.
A token with no `.` leaves `payloadB64` undefined and `Buffer.from`
throws, hence `none`. -/
def decodeJwtPayload (env : JwtEnv) (token : String) : Option Payload :=
  match (splitChar '.' token)[1]? with
  | none => none
  | some seg => env.jsonParsePayload (env.b64urlToString seg)

/-- The JSON body of a successful upstream token response, as far as the
route reads it: `access_token` and `refresh_token` (either may be absent
in the parsed JSON). -/
structure Tokens where
  access_token : Option String
  refresh_token : Option String
  deriving DecidableEq, Repr

/-- Outcome of `fetch(oidc.tokenEndpoint, ...)` and of reading its body:
the fetch itself rejects (`fetchThrows`), the response is non-success with
an error body text (`notOk`), the response is success but
`tokenResponse.json()` throws (`okJsonThrows`), or it parses to `Tokens`
(`okTokens`). -/
inductive UpstreamOutcome where
  | fetchThrows (msg : String)
  | notOk (body : String)
  | okJsonThrows (msg : String)
  | okTokens (t : Tokens)
  deriving DecidableEq, Repr

/-- Server-side session credentials held on `req.user`. -/
structure Session where
  accessToken : Option String
  refreshToken : Option String
  deriving DecidableEq, Repr

/-- The request as the route reads it: `req.isAuthenticated()`, the
`pluginId` of `req.body || {}`, and `req.user`. -/
structure Req where
  authenticated : Bool
  pluginId : Option String
  user : Option Session
  deriving DecidableEq, Repr

/-- An HTTP response of the route: `res.status(s).json({error})` or the
success body `{accessToken, expiresAt, payload}`. -/
inductive Resp where
  | err (status : Nat) (error : String)
  | success (accessToken : String) (expiresAt : Option Int) (payload : Payload)
  deriving DecidableEq, Repr

/-- HTTP status of a response (200 on the success body). -/
def Resp.statusOf : Resp → Nat
  | .err s _ => s
  | .success _ _ _ => 200

/-- Result of one run of the handler: the response sent, the session state
after the run, the registry after the run (the route only reads it), and
the `console.error` log lines. -/
structure HandlerResult where
  resp : Resp
  user : Option Session
  registry : Registry
  log : List String
  deriving Repr

/-- The `POST /refresh-token` handler of `src/routes/auth-refresh.js`,
check by check: 401 if `!req.isAuthenticated()`; 400 if `pluginId` is
falsy; 400 if `getPluginOidcConfig` yields `null`; 401 if
`req.user?.refreshToken` is falsy; then the upstream exchange — a thrown
fetch or JSON parse is caught as 500, a non-success response is logged and
answered 401, and on parsed tokens the session is updated (access token
always, refresh token only when truthy) before the new access token is
decoded; a decode failure is caught as 500, otherwise the success body is
sent. -/
def postRefreshToken (env : JwtEnv) (kc : KeycloakConfig) (reg : Registry)
    (req : Req) (out : UpstreamOutcome) : HandlerResult :=
  if !req.authenticated then
    ⟨.err 401 "Not authenticated", req.user, reg, []⟩
  else if !truthyOpt req.pluginId then
    ⟨.err 400 "pluginId is required", req.user, reg, []⟩
  else
    let pluginId := req.pluginId.getD ""
    match getPluginOidcConfig kc reg pluginId with
    | none =>
      ⟨.err 400 ("Plugin \"" ++ pluginId ++ "\" does not have token refresh configured"),
        req.user, reg, []⟩
    | some _oidc =>
      let refreshToken := req.user.bind (fun u => u.refreshToken)
      if !truthyOpt refreshToken then
        ⟨.err 401 "No refresh token available", req.user, reg, []⟩
      else
        match out with
        | .fetchThrows msg =>
          ⟨.err 500 "Internal error during token refresh", req.user, reg,
            ["Token refresh error: " ++ msg]⟩
        | .notOk body =>
          ⟨.err 401 "Token refresh failed", req.user, reg,
            ["Token refresh failed: " ++ body]⟩
        | .okJsonThrows msg =>
          ⟨.err 500 "Internal error during token refresh", req.user, reg,
            ["Token refresh error: " ++ msg]⟩
        | .okTokens t =>
          let user1 := req.user.map (fun u => { u with accessToken := t.access_token })
          let user2 :=
            if truthyOpt t.refresh_token then
              user1.map (fun u => { u with refreshToken := t.refresh_token })
            else user1
          match t.access_token with
          | none =>
            ⟨.err 500 "Internal error during token refresh", user2, reg,
              ["Token refresh error: cannot read split of undefined"]⟩
          | some at_ =>
            match decodeJwtPayload env at_ with
            | none =>
              ⟨.err 500 "Internal error during token refresh", user2, reg,
                ["Token refresh error: payload decode failed"]⟩
            | some payload =>
              ⟨.success at_ payload.exp payload, user2, reg, []⟩

/-! ## Client refresh scheduler (`src/public/lib/user-token-refresh.js`) -/

/-- Constructor options of `UserTokenRefresh` (`options` object); the two
callback fields record whether a callback function was supplied. -/
structure SchedOptions where
  pluginId : Option String := none
  initialToken : Option String := none
  refreshUrl : Option String := none
  buffer : Option Nat := none
  onRefreshFailed : Bool := false
  onRefreshSuccess : Bool := false
  deriving DecidableEq, Repr

/-- Instance state of `UserTokenRefresh` after construction. -/
structure UserTokenRefresh where
  pluginId : Option String
  initialToken : Option String
  refreshUrl : String
  buffer : Nat
  onRefreshFailed : Bool
  onRefreshSuccess : Bool
  bound : Bool
  deriving DecidableEq, Repr

/-- The `UserTokenRefresh` constructor: fields from options with the
source's `||` defaults (`initialToken || null`,
`refreshUrl || "/auth/refresh-token"`, `buffer || 60`), `_bound = false`. -/
def UserTokenRefresh.mk' (o : SchedOptions) : UserTokenRefresh :=
  { pluginId := o.pluginId
    initialToken := if truthyOpt o.initialToken then o.initialToken else none
    refreshUrl :=
      match o.refreshUrl with
      | some u => if u == "" then "/auth/refresh-token" else u
      | none => "/auth/refresh-token"
    buffer :=
      match o.buffer with
      | some b => if b == 0 then 60 else b
      | none => 60
    onRefreshFailed := o.onRefreshFailed
    onRefreshSuccess := o.onRefreshSuccess
    bound := false }

/-- The viewer element as the scheduler sees it: whether the
`formio:userTokenExpiring` listener is currently attached, and whether
`viewer.refreshUserToken` is a function. -/
structure ViewerState where
  listenerAttached : Bool
  hasRefreshFn : Bool
  deriving DecidableEq, Repr

/-- Observable actions of the scheduler. `networkRequest` is the `fetch`
to the refresh endpoint; viewer pushes and callbacks are effects, not
network traffic. -/
inductive Effect where
  | addListener
  | removeListener
  | seedViewer (token : Option String) (buffer : Nat)
  | networkRequest (url : String) (pluginId : Option String)
  | pushViewer (token : Option String) (buffer : Nat)
  | failureCallback (reason : String)
  | successCallback
  | warn (msg : String)
  | logError (msg : String)
  deriving DecidableEq, Repr

/-- `UserTokenRefresh.bind()`: no-op when already bound; warn and return
without binding when `pluginId` is falsy; otherwise attach the listener,
set `_bound`, and seed the viewer with the initial token when one was
supplied and `viewer.refreshUserToken` is a function. -/
def UserTokenRefresh.bindViewer (s : UserTokenRefresh) (v : ViewerState) :
    UserTokenRefresh × ViewerState × List Effect :=
  if s.bound then (s, v, [])
  else if !truthyOpt s.pluginId then
    (s, v, [.warn "No pluginId provided, token refresh disabled"])
  else
    let v' := { v with listenerAttached := true }
    let s' := { s with bound := true }
    let seed :=
      if truthyOpt s.initialToken && v.hasRefreshFn then
        [.seedViewer s.initialToken s.buffer]
      else []
    (s', v', .addListener :: seed)

/-- `UserTokenRefresh.unbind()`: no-op when not bound, otherwise detach the
listener and clear `_bound`. -/
def UserTokenRefresh.unbindViewer (s : UserTokenRefresh) (v : ViewerState) :
    UserTokenRefresh × ViewerState × List Effect :=
  if !s.bound then (s, v, [])
  else ({ s with bound := false }, { v with listenerAttached := false },
    [.removeListener])

/-- The `detail` of a `formio:userTokenExpiring` event; `none` models an
event with no detail (`event.detail || {}`). -/
structure ExpiringDetail where
  expired : Bool
  deriving DecidableEq, Repr

/-- Outcome of the scheduler's `fetch(this.refreshUrl, ...)`: the fetch
rejects, the response is non-success (carrying the parsed `error` field of
its JSON body, absent when that parse fails), the response is success but
its JSON parse throws, or it parses with an `accessToken` field. -/
inductive ClientFetchOutcome where
  | netError (msg : String)
  | httpErr (status : Nat) (errField : Option String)
  | okJsonErr (msg : String)
  | ok (accessToken : Option String)
  deriving DecidableEq, Repr

/-- `UserTokenRefresh._handleFailure(reason)`: `console.error`, then the
failure callback when one was supplied. -/
def UserTokenRefresh.handleFailure (s : UserTokenRefresh) (reason : String) :
    List Effect :=
  .logError reason :: (if s.onRefreshFailed then [.failureCallback reason] else [])

/-- `UserTokenRefresh._handleExpiring(event)`: on a truthy `expired` flag,
report failure with no network request; otherwise fetch the refresh
endpoint and, per outcome, funnel every failure into `_handleFailure`
(the `throw new Error(errorData.error || ...)` on a non-success response
included), or push the new token into the viewer (warning when
`refreshUserToken` is unavailable) and invoke the success callback. -/
def UserTokenRefresh.handleExpiring (s : UserTokenRefresh) (v : ViewerState)
    (detail : Option ExpiringDetail) (out : ClientFetchOutcome) : List Effect :=
  let expired := match detail with
    | some d => d.expired
    | none => false
  if expired then s.handleFailure "Token already expired"
  else
    .networkRequest s.refreshUrl s.pluginId ::
    match out with
    | .netError msg => s.handleFailure msg
    | .httpErr status errField =>
      let reason :=
        if truthyOpt errField then errField.getD ""
        else "Refresh failed: " ++ toString status
      s.handleFailure reason
    | .okJsonErr msg => s.handleFailure msg
    | .ok accessToken =>
      (if v.hasRefreshFn then [.pushViewer accessToken s.buffer]
       else [.warn "viewer.refreshUserToken not available"])
      ++ (if s.onRefreshSuccess then [.successCallback] else [])

/-- Dispatch of a `formio:userTokenExpiring` event on the viewer: the
handler runs exactly when the listener is attached. -/
def dispatchExpiring (s : UserTokenRefresh) (v : ViewerState)
    (detail : Option ExpiringDetail) (out : ClientFetchOutcome) : List Effect :=
  if v.listenerAttached then s.handleExpiring v detail out else []

/-- One interaction step with a scheduler instance: a `bind()` call, an
`unbind()` call, or an expiry event dispatched on the viewer. -/
inductive SchedStep where
  | bindStep
  | unbindStep
  | dispatch (detail : Option ExpiringDetail) (out : ClientFetchOutcome)
  deriving DecidableEq, Repr

/-- Run a sequence of interaction steps, accumulating effects. -/
def runSched (s : UserTokenRefresh) (v : ViewerState) :
    List SchedStep → (UserTokenRefresh × ViewerState) × List Effect
  | [] => ((s, v), [])
  | step :: rest =>
    let (s', v', eff) :=
      match step with
      | .bindStep => s.bindViewer v
      | .unbindStep => s.unbindViewer v
      | .dispatch detail out => (s, v, dispatchExpiring s v detail out)
    let (final, effs) := runSched s' v' rest
    (final, eff ++ effs)

/-! ## Theorems -/

/-- C4: for every registered manifest, `getPluginOidcConfig` resolves by
cases: absent `tokenRefresh` (or absent `oidc`) yields `none` with no
fallback; the sentinel `"host"` yields the host application's configured
`tokenURL`/`clientID` regardless of the plugin's other fields; a custom
object with `tokenEndpoint` or `clientId` missing (falsy) yields `none`,
never a partial config; otherwise the resolved endpoint and client id are
the object's own fields. -/
theorem c4_oidc_resolution_cases (kc : KeycloakConfig) (r : Registry)
    (slug : String) (entry : RegEntry)
    (hlook : getPlugin r slug = some entry) :
    (entry.manifest.tokenRefresh = none → getPluginOidcConfig kc r slug = none) ∧
    (∀ tr, entry.manifest.tokenRefresh = some tr → tr.oidc = none →
      getPluginOidcConfig kc r slug = none) ∧
    (∀ tr, entry.manifest.tokenRefresh = some tr → tr.oidc = some .host →
      ∃ b, getPluginOidcConfig kc r slug = some ⟨kc.tokenURL, kc.clientID, b⟩) ∧
    (∀ tr te ci, entry.manifest.tokenRefresh = some tr →
      tr.oidc = some (.custom te ci) →
      (truthyOpt te = false ∨ truthyOpt ci = false) →
      getPluginOidcConfig kc r slug = none) ∧
    (∀ tr te ci, entry.manifest.tokenRefresh = some tr →
      tr.oidc = some (.custom (some te) (some ci)) → te ≠ "" → ci ≠ "" →
      ∃ b, getPluginOidcConfig kc r slug = some ⟨te, ci, b⟩) := by
  refine ⟨?_, ?_, ?_, ?_, ?_⟩
  · intro h
    simp [getPluginOidcConfig, hlook, h]
  · intro tr htr hoidc
    simp [getPluginOidcConfig, hlook, htr, hoidc]
  · intro tr htr hoidc
    refine ⟨(match tr.buffer with | some b => if b == 0 then 60 else b | none => 60), ?_⟩
    simp [getPluginOidcConfig, hlook, htr, hoidc]
  · intro tr te ci htr hoidc hfalsy
    rcases hfalsy with h | h <;>
      simp [getPluginOidcConfig, hlook, htr, hoidc, h]
  · intro tr te ci htr hoidc hte hci
    refine ⟨(match tr.buffer with | some b => if b == 0 then 60 else b | none => 60), ?_⟩
    simp [getPluginOidcConfig, hlook, htr, hoidc, truthyOpt, hte, hci]

/-- C4 witness: a concrete registry exercising the lookup hypothesis. -/
theorem c4_oidc_resolution_cases_witness :
    getPluginOidcConfig ⟨"https://host/token", "host-client"⟩
      [("demo",
        ⟨⟨"demo", some ⟨some (.custom (some "https://idp.example/token") (some "pub")), none⟩⟩,
          "/plugins/demo.js"⟩)]
      "demo" = some ⟨"https://idp.example/token", "pub", 60⟩ := by
  have h := c4_oidc_resolution_cases ⟨"https://host/token", "host-client"⟩
    [("demo",
      ⟨⟨"demo", some ⟨some (.custom (some "https://idp.example/token") (some "pub")), none⟩⟩,
        "/plugins/demo.js"⟩)]
    "demo"
    ⟨⟨"demo", some ⟨some (.custom (some "https://idp.example/token") (some "pub")), none⟩⟩,
      "/plugins/demo.js"⟩
    (by decide)
  obtain ⟨b, hb⟩ := h.2.2.2.2
    ⟨some (.custom (some "https://idp.example/token") (some "pub")), none⟩
    "https://idp.example/token" "pub" rfl rfl (by decide) (by decide)
  have : b = 60 := by
    have := hb
    simp [getPluginOidcConfig, getPlugin] at this
    omega
  rw [this] at hb
  exact hb

/-- C5 counterexample: a manifest whose `tokenRefresh.buffer` is present
and equal to `0` resolves — but with buffer `60`, not `0`, because the
source computes `plugin.tokenRefresh.buffer || 60` and `0` is falsy. -/
theorem c5_buffer_zero_counterexample :
    (getPluginOidcConfig ⟨"https://host/token", "host-client"⟩
      [("demo",
        ⟨⟨"demo",
          some ⟨some (.custom (some "https://idp.example/token") (some "pub")), some 0⟩⟩,
          "/plugins/demo.js"⟩)]
      "demo").map (fun c => c.buffer) = some 60 ∧ (60 : Nat) ≠ 0 := by
  exact ⟨by decide, by decide⟩

/-- C5 (amended): for every manifest whose resolution succeeds, the
resolved buffer equals `tokenRefresh.buffer` when that field is present
and nonzero, and `60` when it is absent or `0` — i.e.
`buffer = tokenRefresh.buffer || 60`, not `?? 60`. -/
theorem c5_buffer_default (kc : KeycloakConfig) (r : Registry)
    (slug : String) (entry : RegEntry) (tr : TokenRefreshBlock) (c : OidcConfig)
    (hlook : getPlugin r slug = some entry)
    (htr : entry.manifest.tokenRefresh = some tr)
    (hres : getPluginOidcConfig kc r slug = some c) :
    c.buffer = match tr.buffer with
      | some b => if b = 0 then 60 else b
      | none => 60 := by
  simp only [getPluginOidcConfig, hlook, htr] at hres
  rcases hoidc : tr.oidc with _ | oref
  · rw [hoidc] at hres
    simp at hres
  · rw [hoidc] at hres
    rcases oref with _ | ⟨te, ci⟩
    · simp only [] at hres
      rcases Option.some.inj hres with rfl
      rcases hbuf : tr.buffer with _ | b <;> simp [hbuf]
    · simp only [] at hres
      by_cases hok : (truthyOpt te && truthyOpt ci) = true
      · rw [if_pos hok] at hres
        rcases Option.some.inj hres with rfl
        rcases hbuf : tr.buffer with _ | b <;> simp [hbuf]
      · rw [if_neg hok] at hres
        exact absurd hres (by simp)

/-- C5 witness: concrete resolution with an absent buffer field yields 60. -/
theorem c5_buffer_default_witness :
    (getPluginOidcConfig ⟨"https://host/token", "host-client"⟩
      [("demo",
        ⟨⟨"demo", some ⟨some .host, none⟩⟩, "/plugins/demo.js"⟩)]
      "demo" = some ⟨"https://host/token", "host-client", 60⟩) ∧
    (⟨"https://host/token", "host-client", 60⟩ : OidcConfig).buffer = 60 := by
  have hres : getPluginOidcConfig ⟨"https://host/token", "host-client"⟩
      [("demo", ⟨⟨"demo", some ⟨some .host, none⟩⟩, "/plugins/demo.js"⟩)]
      "demo" = some ⟨"https://host/token", "host-client", 60⟩ := by decide
  refine ⟨hres, ?_⟩
  exact c5_buffer_default ⟨"https://host/token", "host-client"⟩
    [("demo", ⟨⟨"demo", some ⟨some .host, none⟩⟩, "/plugins/demo.js"⟩)]
    "demo"
    ⟨⟨"demo", some ⟨some .host, none⟩⟩, "/plugins/demo.js"⟩
    ⟨some .host, none⟩
    ⟨"https://host/token", "host-client", 60⟩
    (by decide) rfl hres

/-- Helper for C6: folding a directory entry on which `registerDirEntry`
is the identity can be removed from the load without changing the result. -/
theorem loadPluginRegistry_skip_entry (pre post : List DirEntry) (e : DirEntry)
    (h : ∀ r, registerDirEntry r e = r) :
    loadPluginRegistry (some (pre ++ e :: post)) =
      loadPluginRegistry (some (pre ++ post)) := by
  simp only [loadPluginRegistry, List.filter_append, List.filter_cons]
  by_cases hjs : strEndsWith e.name ".js" = true
  · simp only [hjs, if_pos]
    rw [List.foldl_append, List.foldl_cons, h, ← List.foldl_append]
  · simp [hjs]

/-- C6: registry load never raises — a module whose import throws, or that
exposes no manifest, or whose manifest's slug is empty, is skipped without
affecting the rest of the load; a load over one importable and one
throwing module registers exactly the importable manifest keyed by its
slug (with `modulePath` added); and an unreadable plugin directory yields
the empty registry. -/
theorem c6_load_error_tolerance :
    (loadPluginRegistry none = []) ∧
    (∀ pre post f em,
      loadPluginRegistry (some (pre ++ ⟨f, .importError em⟩ :: post)) =
        loadPluginRegistry (some (pre ++ post))) ∧
    (∀ pre post f,
      loadPluginRegistry (some (pre ++ ⟨f, .loaded none⟩ :: post)) =
        loadPluginRegistry (some (pre ++ post))) ∧
    (∀ pre post f mf, mf.slug = "" →
      loadPluginRegistry (some (pre ++ ⟨f, .loaded (some mf)⟩ :: post)) =
        loadPluginRegistry (some (pre ++ post))) ∧
    (∀ f1 f2 mf em, strEndsWith f1 ".js" = true → strEndsWith f2 ".js" = true →
      mf.slug ≠ "" →
      loadPluginRegistry (some [⟨f1, .loaded (some mf)⟩, ⟨f2, .importError em⟩]) =
        [(mf.slug, ⟨mf, "/plugins/" ++ f1⟩)]) := by
  refine ⟨rfl, ?_, ?_, ?_, ?_⟩
  · intro pre post f em
    exact loadPluginRegistry_skip_entry pre post _ (fun r => rfl)
  · intro pre post f
    exact loadPluginRegistry_skip_entry pre post _ (fun r => rfl)
  · intro pre post f mf hs
    refine loadPluginRegistry_skip_entry pre post _ (fun r => ?_)
    simp [registerDirEntry, hs]
  · intro f1 f2 mf em h1 h2 hs
    simp [loadPluginRegistry, List.filter_cons, h1, h2, registerDirEntry, regSet, hs]

/-- C6 witness: a concrete load with one good and one throwing module, and
the unreadable-directory case. -/
theorem c6_load_error_tolerance_witness :
    loadPluginRegistry
      (some [⟨"good.js", .loaded (some ⟨"demo", none⟩)⟩,
             ⟨"bad.js", .importError "boom"⟩]) =
      [("demo", ⟨⟨"demo", none⟩, "/plugins/good.js"⟩)] ∧
    loadPluginRegistry none = [] := by
  have h := c6_load_error_tolerance
  exact ⟨h.2.2.2.2 "good.js" "bad.js" ⟨"demo", none⟩ "boom"
    (by decide) (by decide) (by decide), h.1⟩

/-- C1: the refresh route's error responses follow the first failing check
in source order — unauthenticated → 401; missing (falsy) `pluginId` → 400;
no resolved OIDC config → 400; no stored refresh token → 401; a
non-success upstream response → 401; a thrown fetch, a thrown token-body
parse, or a failed access-token decode → 500. -/
theorem c1_error_order (env : JwtEnv) (kc : KeycloakConfig) (reg : Registry)
    (req : Req) (out : UpstreamOutcome) :
    (req.authenticated = false →
      (postRefreshToken env kc reg req out).resp = .err 401 "Not authenticated") ∧
    (req.authenticated = true → truthyOpt req.pluginId = false →
      (postRefreshToken env kc reg req out).resp = .err 400 "pluginId is required") ∧
    (∀ pid, req.authenticated = true → req.pluginId = some pid → pid ≠ "" →
      getPluginOidcConfig kc reg pid = none →
      (postRefreshToken env kc reg req out).resp =
        .err 400 ("Plugin \"" ++ pid ++ "\" does not have token refresh configured")) ∧
    (∀ pid c, req.authenticated = true → req.pluginId = some pid → pid ≠ "" →
      getPluginOidcConfig kc reg pid = some c →
      truthyOpt (req.user.bind (fun u => u.refreshToken)) = false →
      (postRefreshToken env kc reg req out).resp = .err 401 "No refresh token available") ∧
    (∀ pid c b, req.authenticated = true → req.pluginId = some pid → pid ≠ "" →
      getPluginOidcConfig kc reg pid = some c →
      truthyOpt (req.user.bind (fun u => u.refreshToken)) = true →
      out = .notOk b →
      (postRefreshToken env kc reg req out).resp = .err 401 "Token refresh failed") ∧
    (∀ pid c, req.authenticated = true → req.pluginId = some pid → pid ≠ "" →
      getPluginOidcConfig kc reg pid = some c →
      truthyOpt (req.user.bind (fun u => u.refreshToken)) = true →
      ((∃ m, out = .fetchThrows m) ∨ (∃ m, out = .okJsonThrows m) ∨
        (∃ t, out = .okTokens t ∧
          (t.access_token = none ∨
            ∀ a, t.access_token = some a → decodeJwtPayload env a = none))) →
      (postRefreshToken env kc reg req out).resp =
        .err 500 "Internal error during token refresh") := by
  refine ⟨?_, ?_, ?_, ?_, ?_, ?_⟩
  · intro h
    simp [postRefreshToken, h]
  · intro hauth hpid
    simp [postRefreshToken, hauth, hpid]
  · intro pid hauth hpid hne hcfg
    have hpidT : truthyOpt (some pid) = true := by
      simp [truthyOpt, hne]
    simp [postRefreshToken, hauth, hpid, hpidT, hcfg]
  · intro pid c hauth hpid hne hcfg hrt
    have hpidT : truthyOpt (some pid) = true := by
      simp [truthyOpt, hne]
    simp [postRefreshToken, hauth, hpid, hpidT, hcfg, hrt]
  · intro pid c b hauth hpid hne hcfg hrt hout
    have hpidT : truthyOpt (some pid) = true := by
      simp [truthyOpt, hne]
    subst hout
    simp [postRefreshToken, hauth, hpid, hpidT, hcfg, hrt]
  · intro pid c hauth hpid hne hcfg hrt hout
    have hpidT : truthyOpt (some pid) = true := by
      simp [truthyOpt, hne]
    rcases hout with ⟨m, rfl⟩ | ⟨m, rfl⟩ | ⟨t, rfl, hdec⟩
    · simp [postRefreshToken, hauth, hpid, hpidT, hcfg, hrt]
    · simp [postRefreshToken, hauth, hpid, hpidT, hcfg, hrt]
    · rcases hdec with hnone | hfail
      · simp [postRefreshToken, hauth, hpid, hpidT, hcfg, hrt, hnone]
      · rcases hat : t.access_token with _ | a
        · simp [postRefreshToken, hauth, hpid, hpidT, hcfg, hrt, hat]
        · simp [postRefreshToken, hauth, hpid, hpidT, hcfg, hrt, hat,
            hfail a hat]

/-- C1 witness: each error branch exercised at a concrete request against
a registry with one configured plugin. -/
theorem c1_error_order_witness :
    (postRefreshToken ⟨fun s => s, fun _ => none⟩ ⟨"https://host/token", "host-client"⟩
      [("demo",
        ⟨⟨"demo", some ⟨some (.custom (some "https://idp.example/token") (some "pub")), none⟩⟩,
          "/plugins/demo.js"⟩)]
      ⟨false, none, none⟩ (.notOk "boom")).resp = .err 401 "Not authenticated" ∧
    (postRefreshToken ⟨fun s => s, fun _ => none⟩ ⟨"https://host/token", "host-client"⟩
      [("demo",
        ⟨⟨"demo", some ⟨some (.custom (some "https://idp.example/token") (some "pub")), none⟩⟩,
          "/plugins/demo.js"⟩)]
      ⟨true, none, none⟩ (.notOk "boom")).resp = .err 400 "pluginId is required" ∧
    (postRefreshToken ⟨fun s => s, fun _ => none⟩ ⟨"https://host/token", "host-client"⟩
      [("demo",
        ⟨⟨"demo", some ⟨some (.custom (some "https://idp.example/token") (some "pub")), none⟩⟩,
          "/plugins/demo.js"⟩)]
      ⟨true, some "ghost", none⟩ (.notOk "boom")).resp =
        .err 400 "Plugin \"ghost\" does not have token refresh configured" ∧
    (postRefreshToken ⟨fun s => s, fun _ => none⟩ ⟨"https://host/token", "host-client"⟩
      [("demo",
        ⟨⟨"demo", some ⟨some (.custom (some "https://idp.example/token") (some "pub")), none⟩⟩,
          "/plugins/demo.js"⟩)]
      ⟨true, some "demo", some ⟨some "oldAT", none⟩⟩ (.notOk "boom")).resp =
        .err 401 "No refresh token available" ∧
    (postRefreshToken ⟨fun s => s, fun _ => none⟩ ⟨"https://host/token", "host-client"⟩
      [("demo",
        ⟨⟨"demo", some ⟨some (.custom (some "https://idp.example/token") (some "pub")), none⟩⟩,
          "/plugins/demo.js"⟩)]
      ⟨true, some "demo", some ⟨some "oldAT", some "rt-1"⟩⟩ (.notOk "boom")).resp =
        .err 401 "Token refresh failed" ∧
    (postRefreshToken ⟨fun s => s, fun _ => none⟩ ⟨"https://host/token", "host-client"⟩
      [("demo",
        ⟨⟨"demo", some ⟨some (.custom (some "https://idp.example/token") (some "pub")), none⟩⟩,
          "/plugins/demo.js"⟩)]
      ⟨true, some "demo", some ⟨some "oldAT", some "rt-1"⟩⟩ (.fetchThrows "ECONNREFUSED")).resp =
        .err 500 "Internal error during token refresh" := by
  have h1 := c1_error_order ⟨fun s => s, fun _ => none⟩
    ⟨"https://host/token", "host-client"⟩
    [("demo",
      ⟨⟨"demo", some ⟨some (.custom (some "https://idp.example/token") (some "pub")), none⟩⟩,
        "/plugins/demo.js"⟩)]
    ⟨false, none, none⟩ (.notOk "boom")
  have h2 := c1_error_order ⟨fun s => s, fun _ => none⟩
    ⟨"https://host/token", "host-client"⟩
    [("demo",
      ⟨⟨"demo", some ⟨some (.custom (some "https://idp.example/token") (some "pub")), none⟩⟩,
        "/plugins/demo.js"⟩)]
    ⟨true, none, none⟩ (.notOk "boom")
  have h3 := c1_error_order ⟨fun s => s, fun _ => none⟩
    ⟨"https://host/token", "host-client"⟩
    [("demo",
      ⟨⟨"demo", some ⟨some (.custom (some "https://idp.example/token") (some "pub")), none⟩⟩,
        "/plugins/demo.js"⟩)]
    ⟨true, some "ghost", none⟩ (.notOk "boom")
  have h4 := c1_error_order ⟨fun s => s, fun _ => none⟩
    ⟨"https://host/token", "host-client"⟩
    [("demo",
      ⟨⟨"demo", some ⟨some (.custom (some "https://idp.example/token") (some "pub")), none⟩⟩,
        "/plugins/demo.js"⟩)]
    ⟨true, some "demo", some ⟨some "oldAT", none⟩⟩ (.notOk "boom")
  have h5 := c1_error_order ⟨fun s => s, fun _ => none⟩
    ⟨"https://host/token", "host-client"⟩
    [("demo",
      ⟨⟨"demo", some ⟨some (.custom (some "https://idp.example/token") (some "pub")), none⟩⟩,
        "/plugins/demo.js"⟩)]
    ⟨true, some "demo", some ⟨some "oldAT", some "rt-1"⟩⟩ (.notOk "boom")
  have h6 := c1_error_order ⟨fun s => s, fun _ => none⟩
    ⟨"https://host/token", "host-client"⟩
    [("demo",
      ⟨⟨"demo", some ⟨some (.custom (some "https://idp.example/token") (some "pub")), none⟩⟩,
        "/plugins/demo.js"⟩)]
    ⟨true, some "demo", some ⟨some "oldAT", some "rt-1"⟩⟩ (.fetchThrows "ECONNREFUSED")
  refine ⟨h1.1 rfl, h2.2.1 rfl (by decide), ?_, ?_, ?_, ?_⟩
  · exact h3.2.2.1 "ghost" rfl rfl (by decide) (by decide)
  · exact h4.2.2.2.1 "demo" ⟨"https://idp.example/token", "pub", 60⟩ rfl rfl
      (by decide) (by decide) (by decide)
  · exact h5.2.2.2.2.1 "demo" ⟨"https://idp.example/token", "pub", 60⟩ "boom" rfl rfl
      (by decide) (by decide) (by decide) rfl
  · exact h6.2.2.2.2.2 "demo" ⟨"https://idp.example/token", "pub", 60⟩ rfl rfl
      (by decide) (by decide) (by decide) (Or.inl ⟨"ECONNREFUSED", rfl⟩)

/-- C2: on a successful refresh — authenticated caller, configured plugin,
stored refresh token, upstream success whose tokens decode — the 200
response's `accessToken` is the provider's `access_token`, its `payload`
is the JSON parse of the base64url-decoded middle segment of that token,
its `expiresAt` is that payload's `exp` claim, and the session's
`accessToken` is overwritten with the new access token. -/
theorem c2_success_response (env : JwtEnv) (kc : KeycloakConfig) (reg : Registry)
    (req : Req) (t : Tokens) (pid : String) (c : OidcConfig) (u : Session)
    (a seg : String) (p : Payload)
    (hauth : req.authenticated = true)
    (hpid : req.pluginId = some pid) (hne : pid ≠ "")
    (hcfg : getPluginOidcConfig kc reg pid = some c)
    (huser : req.user = some u)
    (hrt : truthyOpt u.refreshToken = true)
    (hat : t.access_token = some a)
    (hseg : (splitChar '.' a)[1]? = some seg)
    (hp : env.jsonParsePayload (env.b64urlToString seg) = some p) :
    (postRefreshToken env kc reg req (.okTokens t)).resp = .success a p.exp p ∧
    ∃ u2, (postRefreshToken env kc reg req (.okTokens t)).user = some u2 ∧
      u2.accessToken = some a := by
  have hpidT : truthyOpt (some pid) = true := by simp [truthyOpt, hne]
  have hdec : decodeJwtPayload env a = some p := by
    simp [decodeJwtPayload, hseg, hp]
  have hrtB : truthyOpt (req.user.bind (fun u => u.refreshToken)) = true := by
    rw [huser]
    simpa using hrt
  constructor
  · simp [postRefreshToken, hauth, hpid, hpidT, hcfg, hrtB, hat, hdec]
  · by_cases hrt2 : truthyOpt t.refresh_token = true
    · refine ⟨⟨some a, t.refresh_token⟩, ?_, rfl⟩
      simp [postRefreshToken, hauth, hpid, hpidT, hcfg, hrtB, hat, hdec, hrt2, huser, hrt]
    · refine ⟨⟨some a, u.refreshToken⟩, ?_, rfl⟩
      simp [postRefreshToken, hauth, hpid, hpidT, hcfg, hrtB, hat, hdec, hrt2, huser, hrt]

/-- C2 witness: a concrete successful refresh with a three-segment token
whose middle segment parses to a payload with `exp = 1234`. -/
theorem c2_success_response_witness :
    (postRefreshToken
      ⟨fun s => s, fun s => if s == "PAY" then some ⟨some 1234, []⟩ else none⟩
      ⟨"https://host/token", "host-client"⟩
      [("demo",
        ⟨⟨"demo", some ⟨some (.custom (some "https://idp.example/token") (some "pub")), none⟩⟩,
          "/plugins/demo.js"⟩)]
      ⟨true, some "demo", some ⟨some "oldAT", some "rt-1"⟩⟩
      (.okTokens ⟨some "HEAD.PAY.SIG", some "rt-2"⟩)).resp =
      .success "HEAD.PAY.SIG" (some 1234) ⟨some 1234, []⟩ ∧
    ∃ u2, (postRefreshToken
      ⟨fun s => s, fun s => if s == "PAY" then some ⟨some 1234, []⟩ else none⟩
      ⟨"https://host/token", "host-client"⟩
      [("demo",
        ⟨⟨"demo", some ⟨some (.custom (some "https://idp.example/token") (some "pub")), none⟩⟩,
          "/plugins/demo.js"⟩)]
      ⟨true, some "demo", some ⟨some "oldAT", some "rt-1"⟩⟩
      (.okTokens ⟨some "HEAD.PAY.SIG", some "rt-2"⟩)).user = some u2 ∧
      u2.accessToken = some "HEAD.PAY.SIG" := by
  exact c2_success_response
    ⟨fun s => s, fun s => if s == "PAY" then some ⟨some 1234, []⟩ else none⟩
    ⟨"https://host/token", "host-client"⟩
    [("demo",
      ⟨⟨"demo", some ⟨some (.custom (some "https://idp.example/token") (some "pub")), none⟩⟩,
        "/plugins/demo.js"⟩)]
    ⟨true, some "demo", some ⟨some "oldAT", some "rt-1"⟩⟩
    ⟨some "HEAD.PAY.SIG", some "rt-2"⟩
    "demo" ⟨"https://idp.example/token", "pub", 60⟩ ⟨some "oldAT", some "rt-1"⟩
    "HEAD.PAY.SIG" "PAY" ⟨some 1234, []⟩
    rfl rfl (by decide) (by decide) rfl (by decide) rfl (by decide) (by decide)

/-- C3: on a successful refresh, the session's `refreshToken` is
overwritten with the provider's `refresh_token` exactly when the response
carries one (a truthy value — present and non-empty, e.g. `"rt-2"`), and
is left unchanged when the response omits it; and the plugin registry —
the state of every plugin, the named one included — is untouched by the
run. -/
theorem c3_refresh_token_rotation (env : JwtEnv) (kc : KeycloakConfig)
    (reg : Registry) (req : Req) (t : Tokens) (pid : String) (c : OidcConfig)
    (u : Session) (a : String) (p : Payload)
    (hauth : req.authenticated = true)
    (hpid : req.pluginId = some pid) (hne : pid ≠ "")
    (hcfg : getPluginOidcConfig kc reg pid = some c)
    (huser : req.user = some u)
    (hrt : truthyOpt u.refreshToken = true)
    (hat : t.access_token = some a)
    (hdec : decodeJwtPayload env a = some p) :
    (truthyOpt t.refresh_token = true →
      (postRefreshToken env kc reg req (.okTokens t)).user =
        some ⟨some a, t.refresh_token⟩) ∧
    (truthyOpt t.refresh_token = false →
      (postRefreshToken env kc reg req (.okTokens t)).user =
        some ⟨some a, u.refreshToken⟩) ∧
    (postRefreshToken env kc reg req (.okTokens t)).registry = reg := by
  have hpidT : truthyOpt (some pid) = true := by simp [truthyOpt, hne]
  have hrtB : truthyOpt (req.user.bind (fun u => u.refreshToken)) = true := by
    rw [huser]
    simpa using hrt
  refine ⟨?_, ?_, ?_⟩
  · intro hrt2
    simp [postRefreshToken, hauth, hpid, hpidT, hcfg, hrtB, hat, hdec, hrt2, huser, hrt]
  · intro hrt2
    simp [postRefreshToken, hauth, hpid, hpidT, hcfg, hrtB, hat, hdec, hrt2, huser, hrt]
  · by_cases hrt2 : truthyOpt t.refresh_token = true <;>
      simp [postRefreshToken, hauth, hpid, hpidT, hcfg, hrtB, hat, hdec, hrt2, huser, hrt]

/-- C3 witness: the spec scenario — stored `"rt-1"`, provider returns
`"rt-2"` and the session rotates; a second run with no `refresh_token` in
the response keeps `"rt-1"`; the registry is unchanged. -/
theorem c3_refresh_token_rotation_witness :
    (postRefreshToken
      ⟨fun s => s, fun s => if s == "PAY" then some ⟨some 1234, []⟩ else none⟩
      ⟨"https://host/token", "host-client"⟩
      [("demo",
        ⟨⟨"demo", some ⟨some (.custom (some "https://idp.example/token") (some "pub")), none⟩⟩,
          "/plugins/demo.js"⟩)]
      ⟨true, some "demo", some ⟨some "oldAT", some "rt-1"⟩⟩
      (.okTokens ⟨some "HEAD.PAY.SIG", some "rt-2"⟩)).user =
      some ⟨some "HEAD.PAY.SIG", some "rt-2"⟩ ∧
    (postRefreshToken
      ⟨fun s => s, fun s => if s == "PAY" then some ⟨some 1234, []⟩ else none⟩
      ⟨"https://host/token", "host-client"⟩
      [("demo",
        ⟨⟨"demo", some ⟨some (.custom (some "https://idp.example/token") (some "pub")), none⟩⟩,
          "/plugins/demo.js"⟩)]
      ⟨true, some "demo", some ⟨some "oldAT", some "rt-1"⟩⟩
      (.okTokens ⟨some "HEAD.PAY.SIG", none⟩)).user =
      some ⟨some "HEAD.PAY.SIG", some "rt-1"⟩ ∧
    (postRefreshToken
      ⟨fun s => s, fun s => if s == "PAY" then some ⟨some 1234, []⟩ else none⟩
      ⟨"https://host/token", "host-client"⟩
      [("demo",
        ⟨⟨"demo", some ⟨some (.custom (some "https://idp.example/token") (some "pub")), none⟩⟩,
          "/plugins/demo.js"⟩)]
      ⟨true, some "demo", some ⟨some "oldAT", some "rt-1"⟩⟩
      (.okTokens ⟨some "HEAD.PAY.SIG", some "rt-2"⟩)).registry =
      [("demo",
        ⟨⟨"demo", some ⟨some (.custom (some "https://idp.example/token") (some "pub")), none⟩⟩,
          "/plugins/demo.js"⟩)] := by
  have h1 := c3_refresh_token_rotation
    ⟨fun s => s, fun s => if s == "PAY" then some ⟨some 1234, []⟩ else none⟩
    ⟨"https://host/token", "host-client"⟩
    [("demo",
      ⟨⟨"demo", some ⟨some (.custom (some "https://idp.example/token") (some "pub")), none⟩⟩,
        "/plugins/demo.js"⟩)]
    ⟨true, some "demo", some ⟨some "oldAT", some "rt-1"⟩⟩
    ⟨some "HEAD.PAY.SIG", some "rt-2"⟩
    "demo" ⟨"https://idp.example/token", "pub", 60⟩ ⟨some "oldAT", some "rt-1"⟩
    "HEAD.PAY.SIG" ⟨some 1234, []⟩
    rfl rfl (by decide) (by decide) rfl (by decide) rfl (by decide)
  have h2 := c3_refresh_token_rotation
    ⟨fun s => s, fun s => if s == "PAY" then some ⟨some 1234, []⟩ else none⟩
    ⟨"https://host/token", "host-client"⟩
    [("demo",
      ⟨⟨"demo", some ⟨some (.custom (some "https://idp.example/token") (some "pub")), none⟩⟩,
        "/plugins/demo.js"⟩)]
    ⟨true, some "demo", some ⟨some "oldAT", some "rt-1"⟩⟩
    ⟨some "HEAD.PAY.SIG", none⟩
    "demo" ⟨"https://idp.example/token", "pub", 60⟩ ⟨some "oldAT", some "rt-1"⟩
    "HEAD.PAY.SIG" ⟨some 1234, []⟩
    rfl rfl (by decide) (by decide) rfl (by decide) rfl (by decide)
  exact ⟨h1.1 (by decide), h2.2.1 (by decide), h1.2.2⟩

/-- Helper for C9: the handler's run on a non-success upstream response,
with the outcome match reduced. -/
theorem postRefreshToken_notOk (env : JwtEnv) (kc : KeycloakConfig)
    (reg : Registry) (req : Req) (b : String) :
    postRefreshToken env kc reg req (.notOk b) =
      if !req.authenticated then
        ⟨.err 401 "Not authenticated", req.user, reg, []⟩
      else if !truthyOpt req.pluginId then
        ⟨.err 400 "pluginId is required", req.user, reg, []⟩
      else
        match getPluginOidcConfig kc reg (req.pluginId.getD "") with
        | none =>
          ⟨.err 400 ("Plugin \"" ++ req.pluginId.getD "" ++
            "\" does not have token refresh configured"), req.user, reg, []⟩
        | some _ =>
          if !truthyOpt (req.user.bind (fun u => u.refreshToken)) then
            ⟨.err 401 "No refresh token available", req.user, reg, []⟩
          else
            ⟨.err 401 "Token refresh failed", req.user, reg,
              ["Token refresh failed: " ++ b]⟩ := rfl

/-- C9: two refresh requests identical except for the body of the
upstream's non-success response produce the same HTTP response and the
same session state — the upstream error body never flows into the
response; when the request reaches the upstream exchange, the response is
the fixed opaque `401` message and the body appears only in the server
log. -/
theorem c9_upstream_body_opaque (env : JwtEnv) (kc : KeycloakConfig)
    (reg : Registry) (req : Req) (b1 b2 : String) :
    (postRefreshToken env kc reg req (.notOk b1)).resp =
      (postRefreshToken env kc reg req (.notOk b2)).resp ∧
    (postRefreshToken env kc reg req (.notOk b1)).user =
      (postRefreshToken env kc reg req (.notOk b2)).user ∧
    (∀ pid c, req.authenticated = true → req.pluginId = some pid → pid ≠ "" →
      getPluginOidcConfig kc reg pid = some c →
      truthyOpt (req.user.bind (fun u => u.refreshToken)) = true →
      (postRefreshToken env kc reg req (.notOk b1)).resp =
        .err 401 "Token refresh failed" ∧
      (postRefreshToken env kc reg req (.notOk b1)).log =
        ["Token refresh failed: " ++ b1]) := by
  refine ⟨?_, ?_, ?_⟩
  · rw [postRefreshToken_notOk, postRefreshToken_notOk]
    split
    · rfl
    split
    · rfl
    split
    · rfl
    split <;> rfl
  · rw [postRefreshToken_notOk, postRefreshToken_notOk]
    split
    · rfl
    split
    · rfl
    split
    · rfl
    split <;> rfl
  · intro pid c hauth hpid hne hcfg hrt
    have hpidT : truthyOpt (some pid) = true := by simp [truthyOpt, hne]
    constructor <;> simp [postRefreshToken, hauth, hpid, hpidT, hcfg, hrt]

/-- C9 witness: concrete instantiation of the reaches-upstream clause. -/
theorem c9_upstream_body_opaque_witness :
    (postRefreshToken ⟨fun s => s, fun _ => none⟩ ⟨"https://host/token", "host-client"⟩
      [("demo",
        ⟨⟨"demo", some ⟨some (.custom (some "https://idp.example/token") (some "pub")), none⟩⟩,
          "/plugins/demo.js"⟩)]
      ⟨true, some "demo", some ⟨some "oldAT", some "rt-1"⟩⟩ (.notOk "provider says no")).resp =
      (postRefreshToken ⟨fun s => s, fun _ => none⟩ ⟨"https://host/token", "host-client"⟩
      [("demo",
        ⟨⟨"demo", some ⟨some (.custom (some "https://idp.example/token") (some "pub")), none⟩⟩,
          "/plugins/demo.js"⟩)]
      ⟨true, some "demo", some ⟨some "oldAT", some "rt-1"⟩⟩ (.notOk "other body")).resp ∧
    (postRefreshToken ⟨fun s => s, fun _ => none⟩ ⟨"https://host/token", "host-client"⟩
      [("demo",
        ⟨⟨"demo", some ⟨some (.custom (some "https://idp.example/token") (some "pub")), none⟩⟩,
          "/plugins/demo.js"⟩)]
      ⟨true, some "demo", some ⟨some "oldAT", some "rt-1"⟩⟩ (.notOk "provider says no")).resp =
      .err 401 "Token refresh failed" := by
  have h := c9_upstream_body_opaque ⟨fun s => s, fun _ => none⟩
    ⟨"https://host/token", "host-client"⟩
    [("demo",
      ⟨⟨"demo", some ⟨some (.custom (some "https://idp.example/token") (some "pub")), none⟩⟩,
        "/plugins/demo.js"⟩)]
    ⟨true, some "demo", some ⟨some "oldAT", some "rt-1"⟩⟩ "provider says no" "other body"
  exact ⟨h.1,
    (h.2.2 "demo" ⟨"https://idp.example/token", "pub", 60⟩ rfl rfl
      (by decide) (by decide) (by decide)).1⟩

/-- C10: a refresh request answered 400 or 401 leaves the session
credentials exactly as they were; the session is mutated only by
executions whose upstream exchange succeeded (a parsed `okTokens`
outcome). -/
theorem c10_error_responses_preserve_session (env : JwtEnv) (kc : KeycloakConfig)
    (reg : Registry) (req : Req) (out : UpstreamOutcome) :
    ((postRefreshToken env kc reg req out).resp.statusOf = 400 ∨
      (postRefreshToken env kc reg req out).resp.statusOf = 401 →
      (postRefreshToken env kc reg req out).user = req.user) ∧
    ((postRefreshToken env kc reg req out).user ≠ req.user →
      ∃ t, out = .okTokens t) := by
  cases out with
  | fetchThrows m =>
    have hu : (postRefreshToken env kc reg req (.fetchThrows m)).user = req.user := by
      simp only [postRefreshToken]
      split
      · rfl
      split
      · rfl
      split
      · rfl
      split <;> rfl
    exact ⟨fun _ => hu, fun h => absurd hu h⟩
  | notOk b =>
    have hu : (postRefreshToken env kc reg req (.notOk b)).user = req.user := by
      simp only [postRefreshToken]
      split
      · rfl
      split
      · rfl
      split
      · rfl
      split <;> rfl
    exact ⟨fun _ => hu, fun h => absurd hu h⟩
  | okJsonThrows m =>
    have hu : (postRefreshToken env kc reg req (.okJsonThrows m)).user = req.user := by
      simp only [postRefreshToken]
      split
      · rfl
      split
      · rfl
      split
      · rfl
      split <;> rfl
    exact ⟨fun _ => hu, fun h => absurd hu h⟩
  | okTokens t =>
    refine ⟨?_, fun _ => ⟨t, rfl⟩⟩
    intro h
    by_cases hauth : (!req.authenticated) = true
    · simp [postRefreshToken, hauth]
    · by_cases hpid : (!truthyOpt req.pluginId) = true
      · simp [postRefreshToken, hauth, hpid]
      · rcases hcfg : getPluginOidcConfig kc reg (req.pluginId.getD "") with _ | c
        · simp [postRefreshToken, hauth, hpid, hcfg]
        · by_cases hrt : (!truthyOpt (req.user.bind (fun u => u.refreshToken))) = true
          · simp [postRefreshToken, hauth, hpid, hcfg, hrt]
          · exfalso
            rcases hat : t.access_token with _ | a
            · simp [postRefreshToken, hauth, hpid, hcfg, hrt, hat, Resp.statusOf] at h
            · rcases hdec : decodeJwtPayload env a with _ | p
              · simp [postRefreshToken, hauth, hpid, hcfg, hrt, hat, hdec,
                  Resp.statusOf] at h
              · simp [postRefreshToken, hauth, hpid, hcfg, hrt, hat, hdec,
                  Resp.statusOf] at h

/-- C10 witness: an unauthenticated 401 and a missing-pluginId 400 both
leave the (empty) session untouched. -/
theorem c10_error_responses_preserve_session_witness :
    ((postRefreshToken ⟨fun s => s, fun _ => none⟩ ⟨"https://host/token", "host-client"⟩
      [] ⟨false, none, some ⟨some "oldAT", some "rt-1"⟩⟩ (.notOk "x")).user =
      some ⟨some "oldAT", some "rt-1"⟩) ∧
    ((postRefreshToken ⟨fun s => s, fun _ => none⟩ ⟨"https://host/token", "host-client"⟩
      [] ⟨true, none, some ⟨some "oldAT", some "rt-1"⟩⟩ (.notOk "x")).user =
      some ⟨some "oldAT", some "rt-1"⟩) := by
  have h1 := c10_error_responses_preserve_session ⟨fun s => s, fun _ => none⟩
    ⟨"https://host/token", "host-client"⟩ []
    ⟨false, none, some ⟨some "oldAT", some "rt-1"⟩⟩ (.notOk "x")
  have h2 := c10_error_responses_preserve_session ⟨fun s => s, fun _ => none⟩
    ⟨"https://host/token", "host-client"⟩ []
    ⟨true, none, some ⟨some "oldAT", some "rt-1"⟩⟩ (.notOk "x")
  exact ⟨h1.1 (Or.inr (by decide)), h2.1 (Or.inl (by decide))⟩

/-- Helper for C7: from a scheduler with no `pluginId` and a viewer with
no attached listener, no interaction sequence ever produces a network
request (binding always fails closed, so the handler never becomes
reachable). -/
theorem runSched_inert : ∀ (steps : List SchedStep) (s : UserTokenRefresh)
    (v : ViewerState), s.pluginId = none → v.listenerAttached = false →
    ∀ url pid, Effect.networkRequest url pid ∉ (runSched s v steps).2
  | [], s, v, hp, hv, url, pid => by simp [runSched]
  | .bindStep :: rest, s, v, hp, hv, url, pid => by
    by_cases hbd : s.bound = true <;>
      simp [runSched, UserTokenRefresh.bindViewer, hbd, hp, truthyOpt] <;>
      exact runSched_inert rest s v hp hv url pid
  | .unbindStep :: rest, s, v, hp, hv, url, pid => by
    by_cases hbd : s.bound = true
    · simp [runSched, UserTokenRefresh.unbindViewer, hbd]
      exact runSched_inert rest { s with bound := false }
        { v with listenerAttached := false } hp rfl url pid
    · simp [runSched, UserTokenRefresh.unbindViewer, hbd]
      exact runSched_inert rest s v hp hv url pid
  | .dispatch d out :: rest, s, v, hp, hv, url, pid => by
    simp [runSched, dispatchExpiring, hv]
    exact runSched_inert rest s v hp hv url pid

/-- C7: a scheduler constructed without a `pluginId` stays inert —
`bind()` registers no listener and leaves the instance unbound, and no
sequence of subsequent interaction steps (binds, unbinds, dispatched
expiry notifications with any detail and any would-be fetch outcome) ever
produces a network request. -/
theorem c7_unconfigured_scheduler_inert (o : SchedOptions) (v : ViewerState)
    (steps : List SchedStep)
    (hpid : o.pluginId = none) (hv : v.listenerAttached = false) :
    ((UserTokenRefresh.mk' o).bindViewer v).1.bound = false ∧
    ((UserTokenRefresh.mk' o).bindViewer v).2.1.listenerAttached = false ∧
    Effect.addListener ∉ ((UserTokenRefresh.mk' o).bindViewer v).2.2 ∧
    (∀ url pid, Effect.networkRequest url pid ∉
      (runSched (UserTokenRefresh.mk' o) v steps).2) := by
  have hp : (UserTokenRefresh.mk' o).pluginId = none := by
    simp [UserTokenRefresh.mk', hpid]
  have hbd : (UserTokenRefresh.mk' o).bound = false := by
    simp [UserTokenRefresh.mk']
  refine ⟨?_, ?_, ?_, fun url pid => runSched_inert steps _ v hp hv url pid⟩ <;>
    simp [UserTokenRefresh.bindViewer, hp, hbd, truthyOpt, hv]

/-- C7 witness: a concrete optionless-pluginId scheduler run through a
dispatch and a bind. -/
theorem c7_unconfigured_scheduler_inert_witness :
    ((UserTokenRefresh.mk' ⟨none, some "tok0", none, none, true, true⟩).bindViewer
      ⟨false, true⟩).1.bound = false ∧
    ((UserTokenRefresh.mk' ⟨none, some "tok0", none, none, true, true⟩).bindViewer
      ⟨false, true⟩).2.1.listenerAttached = false ∧
    Effect.addListener ∉
      ((UserTokenRefresh.mk' ⟨none, some "tok0", none, none, true, true⟩).bindViewer
        ⟨false, true⟩).2.2 ∧
    (∀ url pid, Effect.networkRequest url pid ∉
      (runSched (UserTokenRefresh.mk' ⟨none, some "tok0", none, none, true, true⟩)
        ⟨false, true⟩
        [.dispatch (some ⟨true⟩) (.ok (some "tok1")), .bindStep,
         .dispatch (some ⟨false⟩) (.ok (some "tok2"))]).2) :=
  c7_unconfigured_scheduler_inert ⟨none, some "tok0", none, none, true, true⟩
    ⟨false, true⟩
    [.dispatch (some ⟨true⟩) (.ok (some "tok1")), .bindStep,
     .dispatch (some ⟨false⟩) (.ok (some "tok2"))]
    rfl rfl

/-- C8: a bound scheduler receiving an expiry notification whose detail
has the `expired` flag set reports failure — the failure callback, when
supplied, is invoked with the reason `"Token already expired"` — and
issues no network request; the handler's full effect list is the error
log plus the optional callback, so it returns normally (nothing is
thrown out of the handler). -/
theorem c8_expired_notification (s : UserTokenRefresh) (v : ViewerState)
    (d : ExpiringDetail) (out : ClientFetchOutcome)
    (_hb : s.bound = true) (hv : v.listenerAttached = true)
    (hd : d.expired = true) :
    (s.onRefreshFailed = true →
      Effect.failureCallback "Token already expired" ∈
        dispatchExpiring s v (some d) out) ∧
    (∀ url pid, Effect.networkRequest url pid ∉ dispatchExpiring s v (some d) out) ∧
    dispatchExpiring s v (some d) out =
      Effect.logError "Token already expired" ::
        (if s.onRefreshFailed then
          [Effect.failureCallback "Token already expired"] else []) := by
  refine ⟨?_, ?_, ?_⟩
  · intro hcb
    simp [dispatchExpiring, UserTokenRefresh.handleExpiring,
      UserTokenRefresh.handleFailure, hv, hd, hcb]
  · intro url pid
    by_cases hcb : s.onRefreshFailed = true <;>
      simp [dispatchExpiring, UserTokenRefresh.handleExpiring,
        UserTokenRefresh.handleFailure, hv, hd, hcb]
  · simp [dispatchExpiring, UserTokenRefresh.handleExpiring,
      UserTokenRefresh.handleFailure, hv, hd]

/-- C8 witness: a concrete bound scheduler with a failure callback
receiving an `expired: true` notification. -/
theorem c8_expired_notification_witness :
    (Effect.failureCallback "Token already expired" ∈
      dispatchExpiring ⟨some "demo", none, "/auth/refresh-token", 60, true, false, true⟩
        ⟨true, true⟩ (some ⟨true⟩) (.ok (some "tok"))) ∧
    (∀ url pid, Effect.networkRequest url pid ∉
      dispatchExpiring ⟨some "demo", none, "/auth/refresh-token", 60, true, false, true⟩
        ⟨true, true⟩ (some ⟨true⟩) (.ok (some "tok"))) := by
  have h := c8_expired_notification
    ⟨some "demo", none, "/auth/refresh-token", 60, true, false, true⟩
    ⟨true, true⟩ ⟨true⟩ (.ok (some "tok")) rfl rfl rfl
  exact ⟨h.1 rfl, h.2.1⟩
